import Mathlib

/-!
Verification development for the DropFrenzy incremental-game core.

The TypeScript sources are shallowly embedded in Lean:
JavaScript numbers are modeled as `ℚ` (the claims under study are
structural comparisons, robust to that choice), `Math.floor` as `Int.floor`,
`Math.round` as floor of `x + 1/2` (JS rounds half toward +∞), and the
`Map<string, _>` registries as lists with lookup by key.
Each definition mirrors one source function; the snapshot embedded is the
one the claim citations point at:
`src/upgrades/Upgrade.ts` (BaseUpgrade, plain cost/effect formulas),
`src/upgrades/UpgradeTypes.ts` (the catalog variant providing
`getSpeedReductionFactor`/`getCriticalMultiplier`, plus `RisingBallsUpgrade`),
`src/upgrades/UpgradeManager.ts` (the variant whose `addCurrency` rounds and
whose `getGravityMultiplier` floors at 0.2),
`src/game/SaveManager.ts`, `src/game/ItemManager.ts`, `src/game/Item.ts`.
-/

namespace DropFrenzy

/-- JavaScript `Math.round`: rounds half toward positive infinity. -/
def jsRound (q : ℚ) : ℤ := ⌊q + 1/2⌋

/-- JavaScript `Math.sign` on rationals. -/
def jsSign (q : ℚ) : ℚ := if 0 < q then 1 else if q < 0 then -1 else 0

/-- `UpgradeType` enum from `src/upgrades/Upgrade.ts` (with `RISING_BALLS`). -/
inductive UpgradeType
  | autoclicker
  | multiplier
  | dropRate
  | gravity
  | criticalChance
  | risingBalls
deriving DecidableEq, Repr

/-- `BaseUpgrade` state from `src/upgrades/Upgrade.ts`.  The DOM-free data
fields of the class; `level` starts at 0 and is a natural number in all
reachable states. -/
structure Upgrade where
  id : String
  utype : UpgradeType
  name : String
  level : ℕ
  maxLevel : ℕ
  baseCost : ℚ
  costMultiplier : ℚ
  baseEffect : ℚ
  effectMultiplier : ℚ
deriving DecidableEq, Repr

namespace Upgrade

/-- `BaseUpgrade.getCurrentCost`:
`Math.floor(this.baseCost * Math.pow(this.costMultiplier, this.level))`. -/
def getCurrentCost (u : Upgrade) : ℤ :=
  ⌊u.baseCost * u.costMultiplier ^ u.level⌋

/-- `BaseUpgrade.getCurrentEffect`: `0` at level 0, else
`this.baseEffect * Math.pow(this.effectMultiplier, this.level - 1)`. -/
def getCurrentEffect (u : Upgrade) : ℚ :=
  if u.level = 0 then 0 else u.baseEffect * u.effectMultiplier ^ (u.level - 1)

/-- `BaseUpgrade.getNextLevelEffect`. -/
def getNextLevelEffect (u : Upgrade) : ℚ :=
  u.baseEffect * u.effectMultiplier ^ u.level

/-- `BaseUpgrade.canUpgrade`: `this.level < this.maxLevel`. -/
def canUpgrade (u : Upgrade) : Bool := u.level < u.maxLevel

/-- `BaseUpgrade.upgrade`: increments `level` iff `canUpgrade()`. -/
def upgradeStep (u : Upgrade) : Upgrade :=
  if u.canUpgrade then { u with level := u.level + 1 } else u

/-- `AutoClickerUpgrade` constructor parameters from `UpgradeTypes.ts`. -/
def autoClicker : Upgrade :=
  { id := "autoclicker", utype := .autoclicker, name := "Auto Collector"
    level := 0, maxLevel := 50
    baseCost := 5, costMultiplier := 12/10, baseEffect := 1/2, effectMultiplier := 125/100 }

/-- `MultiplierUpgrade` constructor parameters from `UpgradeTypes.ts`. -/
def multiplier : Upgrade :=
  { id := "multiplier", utype := .multiplier, name := "Value Multiplier"
    level := 0, maxLevel := 30
    baseCost := 15, costMultiplier := 125/100, baseEffect := 2, effectMultiplier := 115/100 }

/-- `DropRateUpgrade` constructor parameters from `UpgradeTypes.ts`. -/
def dropRate : Upgrade :=
  { id := "drop_rate", utype := .dropRate, name := "Drop Rate"
    level := 0, maxLevel := 40
    baseCost := 8, costMultiplier := 12/10, baseEffect := 15/10, effectMultiplier := 12/10 }

/-- `GravityUpgrade` constructor parameters from `UpgradeTypes.ts`. -/
def gravity : Upgrade :=
  { id := "gravity", utype := .gravity, name := "Gravity Control"
    level := 0, maxLevel := 25
    baseCost := 12, costMultiplier := 125/100, baseEffect := 9/10, effectMultiplier := 9/10 }

/-- `CriticalChanceUpgrade` constructor parameters from `UpgradeTypes.ts`. -/
def criticalChance : Upgrade :=
  { id := "critical_chance", utype := .criticalChance, name := "Critical Chance"
    level := 0, maxLevel := 20
    baseCost := 20, costMultiplier := 13/10, baseEffect := 1/10, effectMultiplier := 14/10 }

/-- `RisingBallsUpgrade` constructor parameters from `UpgradeTypes.ts`. -/
def risingBalls : Upgrade :=
  { id := "rising_balls", utype := .risingBalls, name := "Rising Balls"
    level := 0, maxLevel := 15
    baseCost := 25, costMultiplier := 13/10, baseEffect := 1/10, effectMultiplier := 13/10 }

/-- `CriticalChanceUpgrade.getCriticalChance`: returns `getCurrentEffect()`. -/
def getCriticalChanceU (u : Upgrade) : ℚ := u.getCurrentEffect

/-- `CriticalChanceUpgrade.getCriticalMultiplier`: fixed 3x. -/
def getCriticalMultiplierU (_ : Upgrade) : ℚ := 3

/-- `GravityUpgrade.getSpeedReductionFactor`: returns `getCurrentEffect()`. -/
def getSpeedReductionFactor (u : Upgrade) : ℚ := u.getCurrentEffect

/-- `DropRateUpgrade.getSpawnRateMultiplier`: returns `getCurrentEffect()`. -/
def getSpawnRateMultiplierU (u : Upgrade) : ℚ := u.getCurrentEffect

/-- `MultiplierUpgrade.getValueMultiplier`: returns `getCurrentEffect()`. -/
def getValueMultiplierU (u : Upgrade) : ℚ := u.getCurrentEffect

/-- `AutoClickerUpgrade.getClicksPerSecond`: returns `getCurrentEffect()`. -/
def getClicksPerSecond (u : Upgrade) : ℚ := u.getCurrentEffect

/-- `RisingBallsUpgrade.getRisingChance`:
`Math.min(0.5, this.getCurrentEffect())`. -/
def getRisingChance (u : Upgrade) : ℚ := min (1/2) u.getCurrentEffect

/-- `RisingBallsUpgrade.getRisingValueMultiplier`: fixed 1.5x. -/
def getRisingValueMultiplierU (_ : Upgrade) : ℚ := 3/2

end Upgrade

/-- `UpgradeManager` state: the currency accumulator, the upgrade catalog
(`Map<string, Upgrade>` keyed by `upgrade.id`, modeled as a list with unique
ids), and the log of values passed to the `onCurrencyChange` callback. -/
structure MState where
  currency : ℚ
  upgrades : List Upgrade
  notified : List ℚ
deriving DecidableEq, Repr

namespace MState

/-- `UpgradeManager.initializeUpgrades`: the five upgrades registered in the
catalog, in insertion order. -/
def initialUpgrades : List Upgrade :=
  [Upgrade.autoClicker, Upgrade.multiplier, Upgrade.dropRate,
   Upgrade.gravity, Upgrade.criticalChance]

/-- `new UpgradeManager(initialCurrency)`. -/
def init (initialCurrency : ℚ) : MState :=
  { currency := initialCurrency, upgrades := initialUpgrades, notified := [] }

/-- `this.upgrades.get(id)` (also `UpgradeManager.getUpgrade`). -/
def getUpgrade (s : MState) (id : String) : Option Upgrade :=
  s.upgrades.find? (fun u => u.id = id)

/-- `UpgradeManager.getUpgradeByType`. -/
def getUpgradeByType (s : MState) (t : UpgradeType) : Option Upgrade :=
  s.upgrades.find? (fun u => u.utype = t)

/-- Replace the upgrade stored under `id` (mutation of the `Map` entry). -/
def setUpgrade (s : MState) (id : String) (f : Upgrade → Upgrade) : MState :=
  { s with upgrades := s.upgrades.map (fun u => if u.id = id then f u else u) }

/-- Fire the `onCurrencyChange` callback (modeled as a log append). -/
def notify (s : MState) : MState :=
  { s with notified := s.notified ++ [s.currency] }

/-- `UpgradeManager.purchaseUpgrade`: fail if id unknown, at max level, or
currency below cost; otherwise debit the cost, increment the level and
notify. -/
def purchaseUpgrade (s : MState) (id : String) : Bool × MState :=
  match s.getUpgrade id with
  | none => (false, s)
  | some u =>
    if ¬ u.canUpgrade then (false, s)
    else
      let cost : ℚ := (u.getCurrentCost : ℚ)
      if s.currency < cost then (false, s)
      else
        let s1 := { s with currency := s.currency - cost }
        let s2 := s1.setUpgrade id Upgrade.upgradeStep
        (true, s2.notify)

/-- `UpgradeManager.setCurrency`: `this.currency = amount` (no rounding),
then notify. -/
def setCurrency (s : MState) (amount : ℚ) : MState :=
  ({ s with currency := amount } : MState).notify

/-- `UpgradeManager.addCurrency`:
`this.currency += Math.round(amount)`, then notify. -/
def addCurrency (s : MState) (amount : ℚ) : MState :=
  ({ s with currency := s.currency + (jsRound amount : ℚ) } : MState).notify

/-- `UpgradeManager.getTotalUpgradeLevels`. -/
def getTotalUpgradeLevels (s : MState) : ℕ :=
  (s.upgrades.map (fun u => u.level)).sum

/-- `UpgradeManager.getGravityMultiplier`:
`Math.max(0.2, gravityUpgrade.getSpeedReductionFactor())`, default 1. -/
def getGravityMultiplier (s : MState) : ℚ :=
  match s.getUpgradeByType .gravity with
  | some g => max (2/10) g.getSpeedReductionFactor
  | none => 1

/-- `UpgradeManager.getCriticalChance`:
`Math.min(1, baseCritChance + totalLevels * 0.002)`. -/
def getCriticalChance (s : MState) : ℚ :=
  let baseCritChance : ℚ :=
    match s.getUpgradeByType .criticalChance with
    | some c => c.getCriticalChanceU
    | none => 0
  min 1 (baseCritChance + (s.getTotalUpgradeLevels : ℚ) * (2/1000))

/-- Repeated `purchaseUpgrade` on the same id (a purchase-reachable state). -/
def purchaseRepeat (s : MState) (id : String) : ℕ → MState
  | 0 => s
  | n + 1 => ((purchaseRepeat s id n).purchaseUpgrade id).2

end MState

/-- The cost formula exactly as the specification words it. -/
def specCurrentCost (u : Upgrade) : ℤ := ⌊u.baseCost * u.costMultiplier ^ u.level⌋

/-- The effect formula exactly as the specification words it: 0 at level 0,
else geometric from `baseEffect`. -/
def specCurrentEffect (u : Upgrade) : ℚ :=
  if u.level = 0 then 0 else u.baseEffect * u.effectMultiplier ^ (u.level - 1)

/-- Scenario A's upgrade: `baseCost=10, costMultiplier=1.5, level=0`. -/
def scenarioA : Upgrade :=
  { id := "scenario_a", utype := .multiplier, name := "Scenario A"
    level := 0, maxLevel := 100
    baseCost := 10, costMultiplier := 3/2, baseEffect := 1, effectMultiplier := 1 }

/-- A JSON-like JavaScript value, as produced by `JSON.parse` (plus
`undef` for the result of reading an absent property). -/
inductive JsVal
  | num (q : ℚ)
  | str (s : String)
  | jsBool (b : Bool)
  | null
  | arr (xs : List JsVal)
  | obj (fields : List (String × JsVal))
  | undef

namespace JsVal

/-- JavaScript `typeof` (note `typeof null === "object"`). -/
def jsTypeof : JsVal → String
  | num _ => "number"
  | str _ => "string"
  | jsBool _ => "boolean"
  | null => "object"
  | arr _ => "object"
  | obj _ => "object"
  | undef => "undefined"

/-- Property read `v[k]`; `undefined` when absent or when `v` is a
primitive.  (Reads on `null`/`undefined` throw in JavaScript; the embedding
handles those two cases explicitly at each use site.) -/
def getField (v : JsVal) (k : String) : JsVal :=
  match v with
  | obj fields =>
    match fields.find? (fun p => p.1 = k) with
    | some p => p.2
    | none => undef
  | _ => undef

/-- `Array.isArray`. -/
def isArray : JsVal → Bool
  | arr _ => true
  | _ => false

/-- Numeric payload (use sites are guarded by `typeof === "number"`). -/
def getNum : JsVal → ℚ
  | num q => q
  | _ => 0

/-- String payload (use sites are guarded by `typeof === "string"`). -/
def getStr : JsVal → String
  | str s => s
  | _ => ""

/-- Array payload (use sites are guarded by `Array.isArray`). -/
def getArr : JsVal → List JsVal
  | arr xs => xs
  | _ => []

end JsVal

/-- `SaveManager.CURRENT_VERSION`. -/
def CURRENT_VERSION : ℚ := 1

/-- The per-entry loop of `SaveManager.validateSaveState`: each upgrade
record must be an object with a string `id` and a non-negative numeric
`level`; unknown ids are only warned about, never rejected.  `none` models
the `TypeError` thrown by reading `.id` on a `null` entry (caught by
`loadGame`, which then returns `false`). -/
def validateEntries : List JsVal → Option Bool
  | [] => some true
  | e :: rest =>
    match e with
    | .null => none
    | .obj _ | .arr _ =>
      if (e.getField "id").jsTypeof ≠ "string" then some false
      else if (e.getField "level").jsTypeof ≠ "number" then some false
      else if (e.getField "level").getNum < 0 then some false
      else validateEntries rest
    | _ => some false

/-- `SaveManager.validateSaveState`: top-level shape check, version check,
then the per-entry loop.  `none` models a thrown `TypeError` (reading a
property of `null`). -/
def validateSaveState (v : JsVal) : Option Bool :=
  match v with
  | .null => none
  | .arr _ | .obj _ =>
    if (v.getField "version").jsTypeof ≠ "number" then some false
    else if (v.getField "timestamp").jsTypeof ≠ "number" then some false
    else if (v.getField "currency").jsTypeof ≠ "number" then some false
    else if ¬ (v.getField "upgrades").isArray then some false
    else if (v.getField "version").getNum > CURRENT_VERSION then some false
    else validateEntries (v.getField "upgrades").getArr
  | _ => some false

/-- Iterations of the JavaScript loop `for (let i = 0; i < level; i++)`
for a (possibly fractional) numeric bound. -/
def loopCount (q : ℚ) : ℕ :=
  if q ≤ 0 then 0 else ⌈q⌉.toNat

/-- `upgrade()` applied `n` times. -/
def upgradeIter (u : Upgrade) : ℕ → Upgrade
  | 0 => u
  | n + 1 => (upgradeIter u n).upgradeStep

/-- One iteration of the upgrade-restoring loop of `SaveManager.loadGame`:
if the id is known, reset its level to 0, then call `upgrade()` the
recorded number of times; unknown ids are skipped. -/
def loadEntry (s : MState) (e : JsVal) : MState :=
  let id := (e.getField "id").getStr
  match s.getUpgrade id with
  | some _ =>
    s.setUpgrade id
      (fun u => upgradeIter { u with level := 0 } (loopCount (e.getField "level").getNum))
  | none => s

namespace MState

/-- `SaveManager.saveGame`: the serialized record (`Date.now()` passed in
as `now`; the storage medium is external). -/
def saveGame (now : ℚ) (s : MState) : JsVal :=
  .obj
    [("version", .num CURRENT_VERSION),
     ("timestamp", .num now),
     ("currency", .num s.currency),
     ("upgrades", .arr (s.upgrades.map (fun u =>
       .obj [("id", .str u.id), ("level", .num (u.level : ℚ))])))]

/-- `SaveManager.loadGame` on an already-parsed record: validate; on
success set the currency and replay each entry's upgrades; on failure (or a
thrown `TypeError`, modeled by `none`) return `false` with the state
untouched. -/
def loadGame (s : MState) (v : JsVal) : Bool × MState :=
  match validateSaveState v with
  | some true =>
    let s1 := s.setCurrency (v.getField "currency").getNum
    let s2 := ((v.getField "upgrades").getArr).foldl loadEntry s1
    (true, s2)
  | _ => (false, s)

end MState

/-- A manager state whose catalog carries the given per-upgrade levels (any
purchase-reachable level combination has this form). -/
def stateWithLevels (c : ℚ) (l1 l2 l3 l4 l5 : ℕ) : MState :=
  { currency := c
    upgrades :=
      [{ Upgrade.autoClicker with level := l1 },
       { Upgrade.multiplier with level := l2 },
       { Upgrade.dropRate with level := l3 },
       { Upgrade.gravity with level := l4 },
       { Upgrade.criticalChance with level := l5 }]
    notified := [] }

/-- Spec-side: the record has the documented top-level shape
(`version`, `timestamp`, `currency` numbers; `upgrades` an array). -/
def topShapeOk (v : JsVal) : Bool :=
  decide ((v.getField "version").jsTypeof = "number") &&
  decide ((v.getField "timestamp").jsTypeof = "number") &&
  decide ((v.getField "currency").jsTypeof = "number") &&
  (v.getField "upgrades").isArray

/-- Spec-side: the upgrade entry has a non-string id or a negative level
(or is not even an object carrying those fields). -/
def entryBad (e : JsVal) : Bool :=
  decide ((e.getField "id").jsTypeof ≠ "string") ||
  decide ((e.getField "level").jsTypeof ≠ "number") ||
  decide ((e.getField "level").getNum < 0)

/-- Spec-side: some upgrade entry of the record is bad. -/
def hasBadEntry (v : JsVal) : Bool :=
  ((v.getField "upgrades").getArr).any entryBad

/-- Spec-side: the record's version exceeds the supported version. -/
def versionTooNew (v : JsVal) : Bool :=
  decide ((v.getField "version").getNum > CURRENT_VERSION)

/-- `Item` state from `src/game/Item.ts` (the DOM element is view-layer and
not modeled; the constructor's random horizontal velocity is passed in by
the spawner). -/
structure Item where
  id : String
  x : ℚ
  y : ℚ
  speed : ℚ
  velocityX : ℚ
  maxHorizontalSpeed : ℚ
  acceleration : ℚ
  maxSpeed : ℚ
  baseValue : ℚ
  width : ℚ
  height : ℚ
  isCollected : Bool
  isRising : Bool
  collisionCooldown : ℚ
deriving DecidableEq, Repr

namespace Item

/-- `new Item(id, x, y, speed, baseValue, container)`: `rand` stands for the
`Math.random()` call seeding `velocityX`. -/
def mkNew (id : String) (x y speed baseValue : ℚ) (rand : ℚ) : Item :=
  { id := id, x := x, y := y, speed := speed
    velocityX := (rand - 1/2) * 20
    maxHorizontalSpeed := 30, acceleration := 1/2, maxSpeed := 800
    baseValue := baseValue, width := 40, height := 40
    isCollected := false, isRising := false, collisionCooldown := 0 }

/-- The signed vertical velocity `this.speed * (this.isRising ? -1 : 1)`. -/
def vy (it : Item) : ℚ := it.speed * (if it.isRising then -1 else 1)

/-- The shared tail of `Item.update`: horizontal edge bounces, drag,
horizontal speed clamp, and collision-cooldown decrement. -/
def updateCommon (screenW dt : ℚ) (it : Item) : Item :=
  let p1 := if it.x < 0 then ((0 : ℚ), -it.velocityX * (8/10)) else (it.x, it.velocityX)
  let p2 := if p1.1 > screenW - it.width
    then (screenW - it.width, -p1.2 * (8/10)) else (p1.1, p1.2)
  let v3 := p2.2 * (99/100)
  let v4 := if |v3| > it.maxHorizontalSpeed then it.maxHorizontalSpeed * jsSign v3 else v3
  let cd := if it.collisionCooldown > 0 then it.collisionCooldown - dt else it.collisionCooldown
  { it with x := p2.1, velocityX := v4, collisionCooldown := cd }

/-- `Item.update(deltaTime)`: no-op returning `false` when collected;
otherwise rising items speed up toward the top (with an early `false`
return once past the top edge), falling items accelerate downward (capped
at `maxSpeed`); then the shared horizontal/cooldown updates run.  The
returned boolean is discarded by the manager. -/
def update (screenW screenH dt : ℚ) (it : Item) : Item × Bool :=
  if it.isCollected then (it, false)
  else if it.isRising then
    let progressUpScreen := min 1 (max 0 (1 - it.y / screenH))
    let speedFactor := 1 + progressUpScreen * 2
    let it1 := { it with y := it.y - it.speed * speedFactor * dt
                         x := it.x + it.velocityX * dt }
    if it1.y < -it.height then (it1, false)
    else (updateCommon screenW dt it1, true)
  else
    let progressDownScreen := min 1 (max 0 (it.y / screenH))
    let accelerationFactor := 1 + progressDownScreen * 2
    let speed1 := it.speed + it.acceleration * dt * 100 * accelerationFactor
    let speed2 := if speed1 > it.maxSpeed then it.maxSpeed else speed1
    let it1 := { it with speed := speed2, y := it.y + speed2 * dt }
    (updateCommon screenW dt it1, true)

/-- The AABB overlap test of `Item.checkCollision`. -/
def aabbOverlap (a b : Item) : Bool :=
  decide (a.x < b.x + b.width) && decide (a.x + a.width > b.x) &&
  decide (a.y < b.y + b.height) && decide (a.y + a.height > b.y)

/-- `Item.handleCollision(other)`: `dist` stands for
`Math.sqrt(dx*dx + dy*dy)`; theorems constrain it by `dist^2 = dx^2 + dy^2`
and `0 ≤ dist`.  Sets this item's cooldown, returns early on coincident
centers or separating velocities, else applies the damped impulse to the
horizontal velocities and (as unsigned magnitudes) to the speeds, and
pushes the pair apart by half the overlap. -/
def handleCollision (dist : ℚ) (t o : Item) : Item × Item :=
  if dist = 0 then ({ t with collisionCooldown := 1/10 }, o)
  else if (t.velocityX - o.velocityX) * ((t.x - o.x) / dist)
      + (t.vy - o.vy) * ((t.y - o.y) / dist) > 0 then
    ({ t with collisionCooldown := 1/10 }, o)
  else
    let nx := (t.x - o.x) / dist
    let ny := (t.y - o.y) / dist
    let velocityAlongNormal := (t.velocityX - o.velocityX) * nx + (t.vy - o.vy) * ny
    let impulseScalar := -(1 + 6/10) * velocityAlongNormal
    let tvx := t.velocityX + nx * impulseScalar * (1/2)
    let ovx := o.velocityX - nx * impulseScalar * (1/2)
    let newThisVelocityY := t.vy + ny * impulseScalar * (1/2)
    let newOtherVelocityY := o.vy - ny * impulseScalar * (1/2)
    let tspeed := |newThisVelocityY| * (8/10)
    let ospeed := |newOtherVelocityY| * (8/10)
    let overlap := (t.width + o.width) / 2 - dist
    let pos :=
      if overlap > 0 then
        (t.x + nx * overlap * (1/2), t.y + ny * overlap * (1/2),
         o.x - nx * overlap * (1/2), o.y - ny * overlap * (1/2))
      else (t.x, t.y, o.x, o.y)
    ({ t with collisionCooldown := 1/10, velocityX := tvx, speed := tspeed
              x := pos.1, y := pos.2.1 },
     { o with velocityX := ovx, speed := ospeed, x := pos.2.2.1, y := pos.2.2.2 })

end Item

/-- `ItemManager` state: the live item map (insertion-ordered, keyed by the
monotonically assigned `nextItemId`), spawn timer and tuning fields. -/
structure IMState where
  items : List Item
  nextItemId : ℕ
  spawnInterval : ℚ
  timeSinceLastSpawn : ℚ
  baseSpeed : ℚ
  baseValue : ℚ
  spawnRateMultiplier : ℚ
  speedMultiplier : ℚ
deriving DecidableEq, Repr

namespace IMState

/-- `new ItemManager(container)` field initializers. -/
def initIM : IMState :=
  { items := [], nextItemId := 0, spawnInterval := 3/2, timeSinceLastSpawn := 0
    baseSpeed := 250, baseValue := 1, spawnRateMultiplier := 11/10, speedMultiplier := 1 }

/-- `ItemManager.spawnItem`: a falling item slightly above the window at a
random x. -/
def spawnItem (screenW : ℚ) (randX randV : ℚ) (s : IMState) : IMState :=
  let item := Item.mkNew (toString s.nextItemId) (randX * screenW) (-20)
    (s.baseSpeed * s.speedMultiplier) s.baseValue randV
  { s with items := s.items ++ [item], nextItemId := s.nextItemId + 1 }

/-- `ItemManager.spawnRisingItem`: a rising item slightly below the window,
slightly slower than falling ones. -/
def spawnRisingItem (screenW screenH : ℚ) (randX randV : ℚ) (s : IMState) : IMState :=
  let item0 := Item.mkNew (toString s.nextItemId) (randX * screenW) (screenH + 20)
    (s.baseSpeed * s.speedMultiplier * (8/10)) s.baseValue randV
  let item := { item0 with isRising := true }
  { s with items := s.items ++ [item], nextItemId := s.nextItemId + 1 }

/-- The spawn-timer phase of `ItemManager.update`: accumulate `dt`; when the
effective interval has elapsed, spawn one item (rising when the random roll
beats `risingChance`) and reset the timer to exactly 0. -/
def spawnPhase (screenW screenH : ℚ) (randSpawn randX randV : ℚ)
    (dt risingChance : ℚ) (s : IMState) : IMState :=
  let t := s.timeSinceLastSpawn + dt
  if t ≥ s.spawnInterval / s.spawnRateMultiplier then
    let s1 := if risingChance > 0 ∧ randSpawn < risingChance
      then spawnRisingItem screenW screenH randX randV s
      else spawnItem screenW randX randV s
    { s1 with timeSinceLastSpawn := 0 }
  else { s with timeSinceLastSpawn := t }

/-- The boundary test of `ItemManager.update`: past the bottom for falling
items, past the top for rising ones. -/
def offScreen (screenH : ℚ) (it : Item) : Bool :=
  (!it.isRising && decide (it.y > screenH + it.height)) ||
  (it.isRising && decide (it.y < -it.height))

/-- `ItemManager.update(deltaTime, risingChance)`: run the spawn timer, then
advance every live item; items past their exit boundary are removed, the
uncollected ones among them being returned as missed. -/
def update (screenW screenH : ℚ) (randSpawn randX randV : ℚ)
    (dt risingChance : ℚ) (s : IMState) : IMState × List Item :=
  let s1 := spawnPhase screenW screenH randSpawn randX randV dt risingChance s
  let updated := s1.items.map (fun it => (Item.update screenW screenH dt it).1)
  let missed := updated.filter (fun it => offScreen screenH it && !it.isCollected)
  let kept := updated.filter (fun it => !offScreen screenH it)
  ({ s1 with items := kept }, missed)

/-- `ItemManager.setSpawnRateMultiplier`: floored at 1. -/
def setSpawnRateMultiplier (m : ℚ) (s : IMState) : IMState :=
  { s with spawnRateMultiplier := max 1 m }

/-- `ItemManager.setSpeedMultiplier`: floored at 1. -/
def setSpeedMultiplier (m : ℚ) (s : IMState) : IMState :=
  { s with speedMultiplier := max 1 m }

end IMState

/-- The state reached by buying the critical-chance upgrade to its max
level (20) from a large bankroll: a purchase-reachable level combination. -/
def critMaxState : MState :=
  MState.purchaseRepeat (MState.init 1000000) "critical_chance" 20

/-- The manager state after buying the gravity upgrade five times: its
gravity multiplier is a genuine sub-1 slow-down factor. -/
def gravityFiveState : MState := MState.purchaseRepeat (MState.init 1000) "gravity" 5

/-- An already-collected item sitting inside the screen. -/
def collectedItem : Item :=
  ⟨"c0", 100, 100, 10, 0, 30, 1/2, 800, 1, 40, 40, true, false, 0⟩

/-- A manager holding only the collected item. -/
def c4State : IMState := { IMState.initIM with items := [collectedItem] }

/-- An uncollected falling item one pixel past the bottom boundary. -/
def missedFallingItem : Item :=
  ⟨"f0", 100, 641, 10, 0, 30, 1/2, 800, 1, 40, 40, false, false, 0⟩

/-- A manager holding only the about-to-be-missed item. -/
def c4bState : IMState := { IMState.initIM with items := [missedFallingItem] }

/-- A record whose version is one above the supported version. -/
def badVersionRec : JsVal :=
  .obj [("version", .num 2), ("timestamp", .num 0), ("currency", .num 5),
        ("upgrades", .arr [])]

/-- A well-shaped record whose only upgrade id is unknown to the catalog. -/
def unknownIdRec : JsVal :=
  .obj [("version", .num 1), ("timestamp", .num 0), ("currency", .num 5),
        ("upgrades", .arr [.obj [("id", .str "zzz_unknown"), ("level", .num 3)]])]

/-- A rising item just below a falling item, head-on. -/
def risingBelow : Item :=
  ⟨"r", 0, 120, 10, 0, 30, 1/2, 800, 1, 40, 40, false, true, 0⟩

/-- A falling item just above a rising item, head-on. -/
def fallingAbove : Item :=
  ⟨"f", 0, 90, 10, 0, 30, 1/2, 800, 1, 40, 40, false, false, 0⟩

/-- A faster falling item directly above a slower falling one. -/
def fallFast : Item :=
  ⟨"a", 0, 50, 30, 0, 30, 1/2, 800, 1, 40, 40, false, false, 0⟩

/-- A slower falling item directly below a faster falling one. -/
def fallSlow : Item :=
  ⟨"b", 0, 80, 0, 0, 30, 1/2, 800, 1, 40, 40, false, false, 0⟩

/-- `upgrade()` never changes the id. -/
theorem upgradeStep_id (u : Upgrade) : (u.upgradeStep).id = u.id := by
  unfold Upgrade.upgradeStep; split <;> rfl

/-- `upgrade()` never changes `maxLevel`. -/
theorem upgradeStep_maxLevel (u : Upgrade) : (u.upgradeStep).maxLevel = u.maxLevel := by
  unfold Upgrade.upgradeStep; split <;> rfl

theorem find?_map_update (l : List Upgrade) (id : String) (f : Upgrade → Upgrade)
    (hf : ∀ u, (f u).id = u.id) :
    (l.map (fun u => if u.id = id then f u else u)).find? (fun u => u.id = id)
      = (l.find? (fun u => u.id = id)).map f := by
  induction l with
  | nil => rfl
  | cons a l ih =>
    have hid : (if a.id = id then f a else a).id = a.id := by
      split
      · exact hf a
      · rfl
    simp only [List.map_cons, List.find?_cons, hid]
    by_cases ha : a.id = id
    · simp [ha]
    · simp [ha, ih]

theorem find?_map_update_ne (l : List Upgrade) (id id2 : String) (f : Upgrade → Upgrade)
    (hf : ∀ u, (f u).id = u.id) (hne : id2 ≠ id) :
    (l.map (fun u => if u.id = id then f u else u)).find? (fun u => u.id = id2)
      = l.find? (fun u => u.id = id2) := by
  induction l with
  | nil => rfl
  | cons a l ih =>
    have hid : (if a.id = id then f a else a).id = a.id := by
      split
      · exact hf a
      · rfl
    simp only [List.map_cons, List.find?_cons, hid]
    by_cases hb : a.id = id2
    · have ha : a.id ≠ id := fun hh => hne (hb.symm.trans hh)
      rw [if_neg ha]
      simp [hb]
    · simp [hb, ih]

theorem getUpgrade_setUpgrade_self (s : MState) (id : String) :
    (s.setUpgrade id Upgrade.upgradeStep).getUpgrade id
      = (s.getUpgrade id).map Upgrade.upgradeStep := by
  unfold MState.setUpgrade MState.getUpgrade
  exact find?_map_update s.upgrades id _ upgradeStep_id

theorem getUpgrade_setUpgrade_ne (s : MState) (id id2 : String) (hne : id2 ≠ id) :
    (s.setUpgrade id Upgrade.upgradeStep).getUpgrade id2 = s.getUpgrade id2 := by
  unfold MState.setUpgrade MState.getUpgrade
  exact find?_map_update_ne s.upgrades id id2 _ upgradeStep_id hne

theorem purchaseUpgrade_of_none (s : MState) (id : String)
    (h : s.getUpgrade id = none) : s.purchaseUpgrade id = (false, s) := by
  simp [MState.purchaseUpgrade, h]

theorem purchaseUpgrade_of_maxed (s : MState) (id : String) (u : Upgrade)
    (h : s.getUpgrade id = some u) (hc : u.canUpgrade = false) :
    s.purchaseUpgrade id = (false, s) := by
  simp [MState.purchaseUpgrade, h, hc]

theorem purchaseUpgrade_of_poor (s : MState) (id : String) (u : Upgrade)
    (h : s.getUpgrade id = some u) (hc : u.canUpgrade = true)
    (hcur : s.currency < (u.getCurrentCost : ℚ)) :
    s.purchaseUpgrade id = (false, s) := by
  simp [MState.purchaseUpgrade, h, hc, hcur]

theorem purchaseUpgrade_of_ok (s : MState) (id : String) (u : Upgrade)
    (h : s.getUpgrade id = some u) (hc : u.canUpgrade = true)
    (hcur : ¬ s.currency < (u.getCurrentCost : ℚ)) :
    s.purchaseUpgrade id =
      (true, ({ s with currency := s.currency - (u.getCurrentCost : ℚ) }.setUpgrade
        id Upgrade.upgradeStep).notify) := by
  simp [MState.purchaseUpgrade, h, hc, hcur]

/-- `notify` touches neither currency-independent lookups nor the catalog. -/
theorem notify_getUpgrade (t : MState) (id : String) :
    t.notify.getUpgrade id = t.getUpgrade id := rfl

/-- C1. `purchaseUpgrade(id)`: on `true`, currency decreases by exactly the
pre-purchase `getCurrentCost()` of that upgrade and its level increases by
exactly 1 (all other upgrades untouched); on `false` (id unknown, at max
level, or currency below cost — and exactly in those cases) the state is
completely unchanged. -/
theorem purchaseUpgrade_atomic (s : MState) (id : String) :
    ((s.purchaseUpgrade id).1 = true →
      ∃ u, s.getUpgrade id = some u ∧
        (s.purchaseUpgrade id).2.currency = s.currency - (u.getCurrentCost : ℚ) ∧
        (s.purchaseUpgrade id).2.getUpgrade id = some { u with level := u.level + 1 } ∧
        ∀ id2, id2 ≠ id → (s.purchaseUpgrade id).2.getUpgrade id2 = s.getUpgrade id2) ∧
    ((s.purchaseUpgrade id).1 = false → (s.purchaseUpgrade id).2 = s) ∧
    ((s.purchaseUpgrade id).1 = false ↔
      s.getUpgrade id = none ∨
      ∃ u, s.getUpgrade id = some u ∧
        (u.canUpgrade = false ∨ s.currency < (u.getCurrentCost : ℚ))) := by
  rcases h : s.getUpgrade id with _ | u
  · rw [purchaseUpgrade_of_none s id h]
    exact ⟨fun htrue => absurd htrue (by simp), fun _ => rfl, by simp⟩
  · by_cases hc : u.canUpgrade = true
    · by_cases hcur : s.currency < (u.getCurrentCost : ℚ)
      · rw [purchaseUpgrade_of_poor s id u h hc hcur]
        refine ⟨fun htrue => absurd htrue (by simp), fun _ => rfl, ?_⟩
        simp only [true_iff]
        exact Or.inr ⟨u, rfl, Or.inr hcur⟩
      · rw [purchaseUpgrade_of_ok s id u h hc hcur]
        refine ⟨?_, fun hfalse => absurd hfalse (by simp), ?_⟩
        · intro _
          refine ⟨u, rfl, rfl, ?_, ?_⟩
          · rw [notify_getUpgrade, getUpgrade_setUpgrade_self]
            have h' : ({ s with currency := s.currency - (u.getCurrentCost : ℚ)
                : MState }).getUpgrade id = some u := h
            rw [h']
            show some u.upgradeStep = _
            unfold Upgrade.upgradeStep
            rw [if_pos hc]
          · intro id2 hne
            rw [notify_getUpgrade, getUpgrade_setUpgrade_ne _ _ _ hne]
            rfl
        · constructor
          · intro hft; exact absurd hft (by simp)
          · rintro (hnone | ⟨v, hv, hbad⟩)
            · exact absurd hnone (by simp)
            · injection hv with hv
              subst hv
              rcases hbad with hb | hb
              · rw [hc] at hb; exact absurd hb (by simp)
              · exact absurd hb hcur
    · rw [purchaseUpgrade_of_maxed s id u h (by simpa using hc)]
      refine ⟨fun htrue => absurd htrue (by simp), fun _ => rfl, ?_⟩
      simp only [true_iff]
      exact Or.inr ⟨u, rfl, Or.inl (by simpa using hc)⟩

/-- Witness for C1: buying the auto-clicker (cost 5) with 100 currency
succeeds and debits exactly 5. -/
theorem purchaseUpgrade_atomic_witness :
    ((MState.init 100).purchaseUpgrade "autoclicker").1 = true ∧
    ((MState.init 100).purchaseUpgrade "autoclicker").2.currency = 95 := by
  have hb : ((MState.init 100).purchaseUpgrade "autoclicker").1 = true := by
    with_unfolding_all decide
  obtain ⟨u, hu, hcur, _, _⟩ := (purchaseUpgrade_atomic (MState.init 100) "autoclicker").1 hb
  have hac : (MState.init 100).getUpgrade "autoclicker" = some Upgrade.autoClicker := by
    with_unfolding_all decide
  rw [hac] at hu
  injection hu with hu
  subst hu
  refine ⟨hb, ?_⟩
  rw [hcur]
  norm_num [MState.init, Upgrade.getCurrentCost, Upgrade.autoClicker]

/-- C5. `getCurrentCost()` is `floor(baseCost * costMultiplier^level)` and
`getCurrentEffect()` is 0 at level 0, else
`baseEffect * effectMultiplier^(level-1)`; Scenario A: cost 10 at level 0
and 15 after one `upgrade()`. -/
theorem cost_effect_formulas :
    (∀ u : Upgrade, u.getCurrentCost = specCurrentCost u) ∧
    (∀ u : Upgrade, u.getCurrentEffect = specCurrentEffect u) ∧
    scenarioA.getCurrentCost = 10 ∧ scenarioA.upgradeStep.getCurrentCost = 15 := by
  refine ⟨fun u => rfl, fun u => rfl, by with_unfolding_all decide, by with_unfolding_all decide⟩

/-- Counterexample for C6: `setCurrency(0.5)` stores the non-integer 1/2
verbatim (no rounding), so the currency accumulator does not always hold an
integer after `setCurrency`. -/
theorem setCurrency_keeps_fraction :
    ((MState.init 0).setCurrency (1/2)).currency = 1/2 ∧
    ((MState.init 0).setCurrency (1/2)).currency.den ≠ 1 := by with_unfolding_all decide

/-- C6 as amended: `addCurrency(amount)` adds `Math.round(amount)` (an
integer increment) and then notifies; `setCurrency(amount)` stores the
amount unmodified (no rounding) and then notifies. -/
theorem currency_mutators_spec (s : MState) (a : ℚ) :
    (s.addCurrency a).currency = s.currency + (jsRound a : ℚ) ∧
    (s.addCurrency a).notified = s.notified ++ [s.currency + (jsRound a : ℚ)] ∧
    (s.setCurrency a).currency = a ∧
    (s.setCurrency a).notified = s.notified ++ [a] :=
  ⟨rfl, rfl, rfl, rfl⟩

/-- Levels recorded by `saveGame` are natural-number casts, never negative. -/
theorem natCast_not_neg (n : ℕ) : ¬ ((n : ℚ) < 0) :=
  not_lt.mpr (by positivity)

/-- The iteration count of the replay loop at a natural-number level. -/
theorem loopCount_natCast (n : ℕ) : loopCount (n : ℚ) = n := by
  unfold loopCount
  rcases Nat.eq_zero_or_pos n with h | h
  · subst h; simp
  · rw [if_neg (by rw [not_le]; exact_mod_cast h)]
    rw [Int.ceil_natCast]
    exact Int.toNat_natCast n

/-- Replaying `upgrade()` `n` times from level 0 lands exactly on level `n`
whenever `n` does not exceed the cap. -/
theorem upgradeIter_from_zero (i : String) (t : UpgradeType) (nm : String)
    (mx : ℕ) (bc cm be em : ℚ) (n : ℕ) (h : n ≤ mx) :
    upgradeIter ⟨i, t, nm, 0, mx, bc, cm, be, em⟩ n
      = ⟨i, t, nm, n, mx, bc, cm, be, em⟩ := by
  induction n with
  | zero => rfl
  | succ k ih =>
    unfold upgradeIter
    rw [ih (Nat.le_of_succ_le h)]
    unfold Upgrade.upgradeStep Upgrade.canUpgrade
    simp [show k < mx from h]

theorem validateEntries_cons_good (i : String) (q : ℚ) (hq : ¬ q < 0)
    (rest : List JsVal) :
    validateEntries (.obj [("id", .str i), ("level", .num q)] :: rest)
      = validateEntries rest := by
  show (if q < 0 then some false else validateEntries rest) = validateEntries rest
  exact if_neg hq

theorem validateEntries_map_save (us : List Upgrade) :
    validateEntries (us.map (fun u =>
      .obj [("id", .str u.id), ("level", .num (u.level : ℚ))])) = some true := by
  induction us with
  | nil => rfl
  | cons u rest ih =>
    rw [List.map_cons, validateEntries_cons_good _ _ (natCast_not_neg u.level), ih]

/-- Every record produced by `saveGame` passes validation. -/
theorem validateSaveState_saveGame (now : ℚ) (s : MState) :
    validateSaveState (s.saveGame now) = some true := by
  show (if (1 : ℚ) > CURRENT_VERSION then some false
    else validateEntries (s.upgrades.map (fun u =>
      .obj [("id", .str u.id), ("level", .num (u.level : ℚ))]))) = some true
  rw [if_neg (by norm_num [CURRENT_VERSION])]
  exact validateEntries_map_save s.upgrades

/-- C2. Saving any reachable manager state and loading the record into a
freshly constructed manager reproduces the currency and every recorded
upgrade level (the load replays `upgrade()` the recorded number of times
from level 0). -/
theorem save_load_roundtrip (now c : ℚ) (l1 l2 l3 l4 l5 : ℕ)
    (h1 : l1 ≤ 50) (h2 : l2 ≤ 30) (h3 : l3 ≤ 40) (h4 : l4 ≤ 25) (h5 : l5 ≤ 20) :
    ((MState.init 0).loadGame ((stateWithLevels c l1 l2 l3 l4 l5).saveGame now)).1
        = true ∧
    ((MState.init 0).loadGame ((stateWithLevels c l1 l2 l3 l4 l5).saveGame now)).2.currency
        = (stateWithLevels c l1 l2 l3 l4 l5).currency ∧
    ((MState.init 0).loadGame ((stateWithLevels c l1 l2 l3 l4 l5).saveGame now)).2.upgrades
        = (stateWithLevels c l1 l2 l3 l4 l5).upgrades := by
  have e1 : upgradeIter ⟨"autoclicker", .autoclicker, "Auto Collector",
      0, 50, 5, 12/10, 1/2, 125/100⟩ (loopCount (l1 : ℚ))
      = ⟨"autoclicker", .autoclicker, "Auto Collector", l1, 50, 5, 12/10, 1/2, 125/100⟩ := by
    rw [loopCount_natCast]
    exact upgradeIter_from_zero _ _ _ _ _ _ _ _ _ h1
  have e2 : upgradeIter ⟨"multiplier", .multiplier, "Value Multiplier",
      0, 30, 15, 125/100, 2, 115/100⟩ (loopCount (l2 : ℚ))
      = ⟨"multiplier", .multiplier, "Value Multiplier", l2, 30, 15, 125/100, 2, 115/100⟩ := by
    rw [loopCount_natCast]
    exact upgradeIter_from_zero _ _ _ _ _ _ _ _ _ h2
  have e3 : upgradeIter ⟨"drop_rate", .dropRate, "Drop Rate",
      0, 40, 8, 12/10, 15/10, 12/10⟩ (loopCount (l3 : ℚ))
      = ⟨"drop_rate", .dropRate, "Drop Rate", l3, 40, 8, 12/10, 15/10, 12/10⟩ := by
    rw [loopCount_natCast]
    exact upgradeIter_from_zero _ _ _ _ _ _ _ _ _ h3
  have e4 : upgradeIter ⟨"gravity", .gravity, "Gravity Control",
      0, 25, 12, 125/100, 9/10, 9/10⟩ (loopCount (l4 : ℚ))
      = ⟨"gravity", .gravity, "Gravity Control", l4, 25, 12, 125/100, 9/10, 9/10⟩ := by
    rw [loopCount_natCast]
    exact upgradeIter_from_zero _ _ _ _ _ _ _ _ _ h4
  have e5 : upgradeIter ⟨"critical_chance", .criticalChance, "Critical Chance",
      0, 20, 20, 13/10, 1/10, 14/10⟩ (loopCount (l5 : ℚ))
      = ⟨"critical_chance", .criticalChance, "Critical Chance", l5, 20, 20, 13/10, 1/10, 14/10⟩ := by
    rw [loopCount_natCast]
    exact upgradeIter_from_zero _ _ _ _ _ _ _ _ _ h5
  have s1 : loadEntry
      (MState.mk c
       [⟨"autoclicker", .autoclicker, "Auto Collector", 0, 50, 5, 12/10, 1/2, 125/100⟩,
          ⟨"multiplier", .multiplier, "Value Multiplier", 0, 30, 15, 125/100, 2, 115/100⟩,
          ⟨"drop_rate", .dropRate, "Drop Rate", 0, 40, 8, 12/10, 15/10, 12/10⟩,
          ⟨"gravity", .gravity, "Gravity Control", 0, 25, 12, 125/100, 9/10, 9/10⟩,
          ⟨"critical_chance", .criticalChance, "Critical Chance", 0, 20, 20, 13/10, 1/10, 14/10⟩]
       [c])
      (JsVal.obj [("id", JsVal.str "autoclicker"), ("level", JsVal.num (l1 : ℚ))])
      = MState.mk c
        [upgradeIter ⟨"autoclicker", .autoclicker, "Auto Collector", 0, 50, 5, 12/10, 1/2, 125/100⟩ (loopCount (l1 : ℚ)),
           ⟨"multiplier", .multiplier, "Value Multiplier", 0, 30, 15, 125/100, 2, 115/100⟩,
           ⟨"drop_rate", .dropRate, "Drop Rate", 0, 40, 8, 12/10, 15/10, 12/10⟩,
           ⟨"gravity", .gravity, "Gravity Control", 0, 25, 12, 125/100, 9/10, 9/10⟩,
           ⟨"critical_chance", .criticalChance, "Critical Chance", 0, 20, 20, 13/10, 1/10, 14/10⟩]
        [c] := rfl
  have s2 : loadEntry
      (MState.mk c
       [⟨"autoclicker", .autoclicker, "Auto Collector", l1, 50, 5, 12/10, 1/2, 125/100⟩,
          ⟨"multiplier", .multiplier, "Value Multiplier", 0, 30, 15, 125/100, 2, 115/100⟩,
          ⟨"drop_rate", .dropRate, "Drop Rate", 0, 40, 8, 12/10, 15/10, 12/10⟩,
          ⟨"gravity", .gravity, "Gravity Control", 0, 25, 12, 125/100, 9/10, 9/10⟩,
          ⟨"critical_chance", .criticalChance, "Critical Chance", 0, 20, 20, 13/10, 1/10, 14/10⟩]
       [c])
      (JsVal.obj [("id", JsVal.str "multiplier"), ("level", JsVal.num (l2 : ℚ))])
      = MState.mk c
        [⟨"autoclicker", .autoclicker, "Auto Collector", l1, 50, 5, 12/10, 1/2, 125/100⟩,
           upgradeIter ⟨"multiplier", .multiplier, "Value Multiplier", 0, 30, 15, 125/100, 2, 115/100⟩ (loopCount (l2 : ℚ)),
           ⟨"drop_rate", .dropRate, "Drop Rate", 0, 40, 8, 12/10, 15/10, 12/10⟩,
           ⟨"gravity", .gravity, "Gravity Control", 0, 25, 12, 125/100, 9/10, 9/10⟩,
           ⟨"critical_chance", .criticalChance, "Critical Chance", 0, 20, 20, 13/10, 1/10, 14/10⟩]
        [c] := rfl
  have s3 : loadEntry
      (MState.mk c
       [⟨"autoclicker", .autoclicker, "Auto Collector", l1, 50, 5, 12/10, 1/2, 125/100⟩,
          ⟨"multiplier", .multiplier, "Value Multiplier", l2, 30, 15, 125/100, 2, 115/100⟩,
          ⟨"drop_rate", .dropRate, "Drop Rate", 0, 40, 8, 12/10, 15/10, 12/10⟩,
          ⟨"gravity", .gravity, "Gravity Control", 0, 25, 12, 125/100, 9/10, 9/10⟩,
          ⟨"critical_chance", .criticalChance, "Critical Chance", 0, 20, 20, 13/10, 1/10, 14/10⟩]
       [c])
      (JsVal.obj [("id", JsVal.str "drop_rate"), ("level", JsVal.num (l3 : ℚ))])
      = MState.mk c
        [⟨"autoclicker", .autoclicker, "Auto Collector", l1, 50, 5, 12/10, 1/2, 125/100⟩,
           ⟨"multiplier", .multiplier, "Value Multiplier", l2, 30, 15, 125/100, 2, 115/100⟩,
           upgradeIter ⟨"drop_rate", .dropRate, "Drop Rate", 0, 40, 8, 12/10, 15/10, 12/10⟩ (loopCount (l3 : ℚ)),
           ⟨"gravity", .gravity, "Gravity Control", 0, 25, 12, 125/100, 9/10, 9/10⟩,
           ⟨"critical_chance", .criticalChance, "Critical Chance", 0, 20, 20, 13/10, 1/10, 14/10⟩]
        [c] := rfl
  have s4 : loadEntry
      (MState.mk c
       [⟨"autoclicker", .autoclicker, "Auto Collector", l1, 50, 5, 12/10, 1/2, 125/100⟩,
          ⟨"multiplier", .multiplier, "Value Multiplier", l2, 30, 15, 125/100, 2, 115/100⟩,
          ⟨"drop_rate", .dropRate, "Drop Rate", l3, 40, 8, 12/10, 15/10, 12/10⟩,
          ⟨"gravity", .gravity, "Gravity Control", 0, 25, 12, 125/100, 9/10, 9/10⟩,
          ⟨"critical_chance", .criticalChance, "Critical Chance", 0, 20, 20, 13/10, 1/10, 14/10⟩]
       [c])
      (JsVal.obj [("id", JsVal.str "gravity"), ("level", JsVal.num (l4 : ℚ))])
      = MState.mk c
        [⟨"autoclicker", .autoclicker, "Auto Collector", l1, 50, 5, 12/10, 1/2, 125/100⟩,
           ⟨"multiplier", .multiplier, "Value Multiplier", l2, 30, 15, 125/100, 2, 115/100⟩,
           ⟨"drop_rate", .dropRate, "Drop Rate", l3, 40, 8, 12/10, 15/10, 12/10⟩,
           upgradeIter ⟨"gravity", .gravity, "Gravity Control", 0, 25, 12, 125/100, 9/10, 9/10⟩ (loopCount (l4 : ℚ)),
           ⟨"critical_chance", .criticalChance, "Critical Chance", 0, 20, 20, 13/10, 1/10, 14/10⟩]
        [c] := rfl
  have s5 : loadEntry
      (MState.mk c
       [⟨"autoclicker", .autoclicker, "Auto Collector", l1, 50, 5, 12/10, 1/2, 125/100⟩,
          ⟨"multiplier", .multiplier, "Value Multiplier", l2, 30, 15, 125/100, 2, 115/100⟩,
          ⟨"drop_rate", .dropRate, "Drop Rate", l3, 40, 8, 12/10, 15/10, 12/10⟩,
          ⟨"gravity", .gravity, "Gravity Control", l4, 25, 12, 125/100, 9/10, 9/10⟩,
          ⟨"critical_chance", .criticalChance, "Critical Chance", 0, 20, 20, 13/10, 1/10, 14/10⟩]
       [c])
      (JsVal.obj [("id", JsVal.str "critical_chance"), ("level", JsVal.num (l5 : ℚ))])
      = MState.mk c
        [⟨"autoclicker", .autoclicker, "Auto Collector", l1, 50, 5, 12/10, 1/2, 125/100⟩,
           ⟨"multiplier", .multiplier, "Value Multiplier", l2, 30, 15, 125/100, 2, 115/100⟩,
           ⟨"drop_rate", .dropRate, "Drop Rate", l3, 40, 8, 12/10, 15/10, 12/10⟩,
           ⟨"gravity", .gravity, "Gravity Control", l4, 25, 12, 125/100, 9/10, 9/10⟩,
           upgradeIter ⟨"critical_chance", .criticalChance, "Critical Chance", 0, 20, 20, 13/10, 1/10, 14/10⟩ (loopCount (l5 : ℚ))]
        [c] := rfl
  have hfold : (MState.init 0).loadGame ((stateWithLevels c l1 l2 l3 l4 l5).saveGame now)
      = (true, MState.mk c
               [⟨"autoclicker", .autoclicker, "Auto Collector", l1, 50, 5, 12/10, 1/2, 125/100⟩,
                  ⟨"multiplier", .multiplier, "Value Multiplier", l2, 30, 15, 125/100, 2, 115/100⟩,
                  ⟨"drop_rate", .dropRate, "Drop Rate", l3, 40, 8, 12/10, 15/10, 12/10⟩,
                  ⟨"gravity", .gravity, "Gravity Control", l4, 25, 12, 125/100, 9/10, 9/10⟩,
                  ⟨"critical_chance", .criticalChance, "Critical Chance", l5, 20, 20, 13/10, 1/10, 14/10⟩]
               [c]) := by
    unfold MState.loadGame
    rw [validateSaveState_saveGame]
    show (true, List.foldl loadEntry
      (MState.mk c
       [⟨"autoclicker", .autoclicker, "Auto Collector", 0, 50, 5, 12/10, 1/2, 125/100⟩,
          ⟨"multiplier", .multiplier, "Value Multiplier", 0, 30, 15, 125/100, 2, 115/100⟩,
          ⟨"drop_rate", .dropRate, "Drop Rate", 0, 40, 8, 12/10, 15/10, 12/10⟩,
          ⟨"gravity", .gravity, "Gravity Control", 0, 25, 12, 125/100, 9/10, 9/10⟩,
          ⟨"critical_chance", .criticalChance, "Critical Chance", 0, 20, 20, 13/10, 1/10, 14/10⟩]
       [c])
      [JsVal.obj [("id", JsVal.str "autoclicker"), ("level", JsVal.num (l1 : ℚ))],
       JsVal.obj [("id", JsVal.str "multiplier"), ("level", JsVal.num (l2 : ℚ))],
       JsVal.obj [("id", JsVal.str "drop_rate"), ("level", JsVal.num (l3 : ℚ))],
       JsVal.obj [("id", JsVal.str "gravity"), ("level", JsVal.num (l4 : ℚ))],
       JsVal.obj [("id", JsVal.str "critical_chance"), ("level", JsVal.num (l5 : ℚ))]]) = _
    rw [List.foldl_cons, s1, e1,
      List.foldl_cons, s2, e2,
      List.foldl_cons, s3, e3,
      List.foldl_cons, s4, e4,
      List.foldl_cons, s5, e5,
      List.foldl_nil]
  rw [hfold]
  exact ⟨rfl, rfl, rfl⟩

/-- Witness for C2: a concrete reachable state (currency 42, levels
3/0/7/2/20) round-trips. -/
theorem save_load_roundtrip_witness :
    ((MState.init 0).loadGame ((stateWithLevels 42 3 0 7 2 20).saveGame 1000)).1 = true ∧
    ((MState.init 0).loadGame ((stateWithLevels 42 3 0 7 2 20).saveGame 1000)).2.currency
      = (stateWithLevels 42 3 0 7 2 20).currency ∧
    ((MState.init 0).loadGame ((stateWithLevels 42 3 0 7 2 20).saveGame 1000)).2.upgrades
      = (stateWithLevels 42 3 0 7 2 20).upgrades := by
  exact save_load_roundtrip 1000 42 3 0 7 2 20 (by decide) (by decide) (by decide)
    (by decide) (by decide)

theorem loadGame_eq_of_validate_none (s : MState) (v : JsVal)
    (h : validateSaveState v = none) : s.loadGame v = (false, s) := by
  unfold MState.loadGame
  rw [h]

theorem loadGame_eq_of_validate_false (s : MState) (v : JsVal)
    (h : validateSaveState v = some false) : s.loadGame v = (false, s) := by
  unfold MState.loadGame
  rw [h]

theorem loadGame_fst_of_validate_true (s : MState) (v : JsVal)
    (h : validateSaveState v = some true) : (s.loadGame v).1 = true := by
  unfold MState.loadGame
  rw [h]

/-- The per-entry validation loop accepts exactly the entry lists without a
bad entry (it returns `some true` iff no entry is bad; otherwise it returns
`some false` or throws). -/
theorem validateEntries_true_iff (es : List JsVal) :
    validateEntries es = some true ↔ es.any entryBad = false := by
  induction es with
  | nil => simp [validateEntries]
  | cons e rest ih =>
    cases e with
    | null =>
      simp [validateEntries, entryBad, JsVal.getField, JsVal.jsTypeof]
    | num q =>
      simp [validateEntries, entryBad, JsVal.getField, JsVal.jsTypeof]
    | str t =>
      simp [validateEntries, entryBad, JsVal.getField, JsVal.jsTypeof]
    | jsBool b =>
      simp [validateEntries, entryBad, JsVal.getField, JsVal.jsTypeof]
    | undef =>
      simp [validateEntries, entryBad, JsVal.getField, JsVal.jsTypeof]
    | arr xs =>
      simp [validateEntries, entryBad, JsVal.getField, JsVal.jsTypeof]
    | obj fields =>
      have hval : validateEntries (JsVal.obj fields :: rest)
          = (if ((JsVal.obj fields).getField "id").jsTypeof ≠ "string" then some false
             else if ((JsVal.obj fields).getField "level").jsTypeof ≠ "number" then some false
             else if ((JsVal.obj fields).getField "level").getNum < 0 then some false
             else validateEntries rest) := rfl
      rw [hval]
      by_cases h1 : ((JsVal.obj fields).getField "id").jsTypeof = "string"
      · rw [if_neg (not_not_intro h1)]
        by_cases h2 : ((JsVal.obj fields).getField "level").jsTypeof = "number"
        · rw [if_neg (not_not_intro h2)]
          by_cases h3 : ((JsVal.obj fields).getField "level").getNum < 0
          · rw [if_pos h3]
            simp [entryBad, h1, h2, h3]
          · rw [if_neg h3]
            simp [entryBad, h1, h2, h3, ih]
        · rw [if_pos h2]
          simp [entryBad, h2]
      · rw [if_pos h1]
        simp [entryBad, h1]

/-- C3. `loadGame` rejects — returning `false` and leaving the in-memory
state untouched — every record whose top-level shape mismatches the schema,
that contains an entry with a non-string id or negative level, or whose
version exceeds the supported one; and it accepts every well-shaped record
regardless of whether its upgrade ids are known to the catalog. -/
theorem loadGame_validation (s : MState) (v : JsVal) :
    ((topShapeOk v = false ∨ hasBadEntry v = true ∨ versionTooNew v = true) →
      s.loadGame v = (false, s)) ∧
    ((topShapeOk v = true ∧ hasBadEntry v = false ∧ versionTooNew v = false) →
      (s.loadGame v).1 = true) := by
  cases v with
  | num q => exact ⟨fun _ => rfl, fun h => Bool.noConfusion h.1⟩
  | str t => exact ⟨fun _ => rfl, fun h => Bool.noConfusion h.1⟩
  | jsBool b => exact ⟨fun _ => rfl, fun h => Bool.noConfusion h.1⟩
  | undef => exact ⟨fun _ => rfl, fun h => Bool.noConfusion h.1⟩
  | null => exact ⟨fun _ => rfl, fun h => Bool.noConfusion h.1⟩
  | arr xs => exact ⟨fun _ => rfl, fun h => Bool.noConfusion h.1⟩
  | obj fields =>
    by_cases hA1 : ((JsVal.obj fields).getField "version").jsTypeof = "number"
    case neg =>
      have hv : validateSaveState (JsVal.obj fields) = some false := by
        simp only [validateSaveState]
        rw [if_pos hA1]
      refine ⟨fun _ => loadGame_eq_of_validate_false s _ hv, fun h => ?_⟩
      have := h.1
      simp [topShapeOk, hA1] at this
    case pos =>
    by_cases hA2 : ((JsVal.obj fields).getField "timestamp").jsTypeof = "number"
    case neg =>
      have hv : validateSaveState (JsVal.obj fields) = some false := by
        simp only [validateSaveState]
        rw [if_neg (not_not_intro hA1), if_pos hA2]
      refine ⟨fun _ => loadGame_eq_of_validate_false s _ hv, fun h => ?_⟩
      have := h.1
      simp [topShapeOk, hA2] at this
    case pos =>
    by_cases hA3 : ((JsVal.obj fields).getField "currency").jsTypeof = "number"
    case neg =>
      have hv : validateSaveState (JsVal.obj fields) = some false := by
        simp only [validateSaveState]
        rw [if_neg (not_not_intro hA1), if_neg (not_not_intro hA2), if_pos hA3]
      refine ⟨fun _ => loadGame_eq_of_validate_false s _ hv, fun h => ?_⟩
      have := h.1
      simp [topShapeOk, hA3] at this
    case pos =>
    by_cases hA4 : ((JsVal.obj fields).getField "upgrades").isArray = true
    case neg =>
      have hv : validateSaveState (JsVal.obj fields) = some false := by
        simp only [validateSaveState]
        rw [if_neg (not_not_intro hA1), if_neg (not_not_intro hA2),
          if_neg (not_not_intro hA3), if_pos (by simpa using hA4)]
      refine ⟨fun _ => loadGame_eq_of_validate_false s _ hv, fun h => ?_⟩
      have := h.1
      simp [topShapeOk, hA4] at this
    case pos =>
    by_cases hver : ((JsVal.obj fields).getField "version").getNum > CURRENT_VERSION
    case pos =>
      have hv : validateSaveState (JsVal.obj fields) = some false := by
        simp only [validateSaveState]
        rw [if_neg (not_not_intro hA1), if_neg (not_not_intro hA2),
          if_neg (not_not_intro hA3), if_neg (by simpa using hA4), if_pos hver]
      refine ⟨fun _ => loadGame_eq_of_validate_false s _ hv, fun h => ?_⟩
      have := h.2.2
      simp [versionTooNew, hver] at this
    case neg =>
      have hvv : validateSaveState (JsVal.obj fields)
          = validateEntries ((JsVal.obj fields).getField "upgrades").getArr := by
        simp only [validateSaveState]
        rw [if_neg (not_not_intro hA1), if_neg (not_not_intro hA2),
          if_neg (not_not_intro hA3), if_neg (by simpa using hA4), if_neg hver]
      rcases hev : validateEntries ((JsVal.obj fields).getField "upgrades").getArr
        with _ | b
      · refine ⟨fun _ => loadGame_eq_of_validate_none s _ (hvv.trans hev), fun h => ?_⟩
        have h2 := h.2.1
        have : validateEntries ((JsVal.obj fields).getField "upgrades").getArr
            = some true := (validateEntries_true_iff _).mpr h2
        rw [hev] at this
        exact Option.noConfusion this
      · cases b with
        | true =>
          refine ⟨?_, fun _ => loadGame_fst_of_validate_true s _ (hvv.trans hev)⟩
          rintro (h | h | h)
          · simp [topShapeOk, hA1, hA2, hA3, hA4] at h
          · have hany := (validateEntries_true_iff _).mp hev
            have h' : (((JsVal.obj fields).getField "upgrades").getArr.any entryBad)
                = true := h
            rw [h'] at hany
            exact Bool.noConfusion hany
          · simp [versionTooNew, hver] at h
        | false =>
          refine ⟨fun _ => loadGame_eq_of_validate_false s _ (hvv.trans hev), fun h => ?_⟩
          have h2 := h.2.1
          have : validateEntries ((JsVal.obj fields).getField "upgrades").getArr
              = some true := (validateEntries_true_iff _).mpr h2
          rw [hev] at this
          have := Option.some.inj this
          exact Bool.noConfusion this

/-- Counterexample for C8: at the purchase-reachable state with
critical-chance at max level, `getCriticalChance()` returns exactly 1.0
(the `Math.min(1, …)` cap is attained), so it is not strictly below 1. -/
theorem criticalChance_reaches_one :
    critMaxState.getCriticalChance = 1 ∧ ¬ critMaxState.getCriticalChance < 1 := by
  with_unfolding_all decide

/-- C8 as amended: the critical-chance getter is capped at 1.0 (≤ 1, with
the bound attained at reachable states), and the rising-chance getter is
capped at 0.5, hence always strictly below 1. -/
theorem chance_getters_capped :
    (∀ s : MState, s.getCriticalChance ≤ 1) ∧
    (∀ u : Upgrade, u.getRisingChance ≤ 1/2 ∧ u.getRisingChance < 1) := by
  constructor
  · intro s
    exact min_le_left _ _
  · intro u
    refine ⟨min_le_left _ _, lt_of_le_of_lt (min_le_left _ _) (by norm_num)⟩

/-- C7 (code bug evidence). Both `setSpawnRateMultiplier` and
`setSpeedMultiplier` floor their stored multiplier at 1; in particular the
sub-1 value produced by `getGravityMultiplier` after five gravity purchases
(0.59049, above the 0.2 floor) is clamped to 1, so fall-speed-reducing
upgrade values between 0.2 and 1 never take effect. -/
theorem setSpeedMultiplier_floor_one :
    (∀ (s : IMState) (m : ℚ),
      (IMState.setSpawnRateMultiplier m s).spawnRateMultiplier = max 1 m ∧
      (IMState.setSpeedMultiplier m s).speedMultiplier = max 1 m ∧
      1 ≤ (IMState.setSpeedMultiplier m s).speedMultiplier) ∧
    gravityFiveState.getGravityMultiplier < 1 ∧
    (2/10 : ℚ) < gravityFiveState.getGravityMultiplier ∧
    (IMState.setSpeedMultiplier gravityFiveState.getGravityMultiplier
      IMState.initIM).speedMultiplier = 1 := by
  refine ⟨fun s m => ⟨rfl, rfl, le_max_left _ _⟩, ?_, ?_, ?_⟩
  · with_unfolding_all decide
  · with_unfolding_all decide
  · with_unfolding_all decide

/-- C10. One `update()` call spawns at most one item, and whenever it
spawns (exactly when the accumulated timer reaches the effective interval)
the spawn timer is reset to exactly 0, discarding any overshoot; otherwise
the timer just accumulates `dt`. -/
theorem update_spawns_at_most_one (screenW screenH randSpawn randX randV dt risingChance : ℚ)
    (s : IMState) :
    ((IMState.update screenW screenH randSpawn randX randV dt risingChance s).1.nextItemId
        = s.nextItemId ∧
     (IMState.update screenW screenH randSpawn randX randV dt risingChance s).1.timeSinceLastSpawn
        = s.timeSinceLastSpawn + dt ∧
     s.timeSinceLastSpawn + dt < s.spawnInterval / s.spawnRateMultiplier) ∨
    ((IMState.update screenW screenH randSpawn randX randV dt risingChance s).1.nextItemId
        = s.nextItemId + 1 ∧
     (IMState.update screenW screenH randSpawn randX randV dt risingChance s).1.timeSinceLastSpawn
        = 0 ∧
     s.timeSinceLastSpawn + dt ≥ s.spawnInterval / s.spawnRateMultiplier) := by
  by_cases ht : s.timeSinceLastSpawn + dt ≥ s.spawnInterval / s.spawnRateMultiplier
  · right
    refine ⟨?_, ?_, ht⟩
    · show (IMState.spawnPhase screenW screenH randSpawn randX randV dt risingChance
          s).nextItemId = s.nextItemId + 1
      unfold IMState.spawnPhase
      rw [if_pos ht]
      by_cases hr : risingChance > 0 ∧ randSpawn < risingChance
      · rw [if_pos hr]; rfl
      · rw [if_neg hr]; rfl
    · show (IMState.spawnPhase screenW screenH randSpawn randX randV dt risingChance
          s).timeSinceLastSpawn = 0
      unfold IMState.spawnPhase
      rw [if_pos ht]
  · left
    refine ⟨?_, ?_, lt_of_not_ge ht⟩
    · show (IMState.spawnPhase screenW screenH randSpawn randX randV dt risingChance
          s).nextItemId = s.nextItemId
      unfold IMState.spawnPhase
      rw [if_neg ht]
    · show (IMState.spawnPhase screenW screenH randSpawn randX randV dt risingChance
          s).timeSinceLastSpawn = s.timeSinceLastSpawn + dt
      unfold IMState.spawnPhase
      rw [if_neg ht]

/-- The two result components of `ItemManager.update`: survivors are the
advanced items not past their boundary; missed are the advanced items past
their boundary and uncollected. -/
theorem update_proj (screenW screenH randSpawn randX randV dt risingChance : ℚ)
    (s : IMState) :
    (IMState.update screenW screenH randSpawn randX randV dt risingChance s).1.items
      = ((IMState.spawnPhase screenW screenH randSpawn randX randV dt risingChance s).items.map
          (fun it => (Item.update screenW screenH dt it).1)).filter
          (fun it => !IMState.offScreen screenH it) ∧
    (IMState.update screenW screenH randSpawn randX randV dt risingChance s).2
      = ((IMState.spawnPhase screenW screenH randSpawn randX randV dt risingChance s).items.map
          (fun it => (Item.update screenW screenH dt it).1)).filter
          (fun it => IMState.offScreen screenH it && !it.isCollected) :=
  ⟨rfl, rfl⟩

/-- C4 as amended. After a tick, an item that crossed its exit boundary is
removed from the live set, and is reported as missed exactly when it is
uncollected; an item that has not crossed its boundary — in particular any
collected item, whose position is frozen inside the screen — stays in the
live set and is never reported.  (Collected items are not removed when
their exit animation elapses: only their DOM element is; the manager keeps
them.) -/
theorem update_removal_spec (screenW screenH randSpawn randX randV dt risingChance : ℚ)
    (s : IMState) (it : Item)
    (hmem : it ∈ (IMState.spawnPhase screenW screenH randSpawn randX randV dt
      risingChance s).items) :
    (IMState.offScreen screenH (Item.update screenW screenH dt it).1 = true →
      ((Item.update screenW screenH dt it).1.isCollected = false →
        (Item.update screenW screenH dt it).1
          ∈ (IMState.update screenW screenH randSpawn randX randV dt risingChance s).2) ∧
      ((Item.update screenW screenH dt it).1.isCollected = true →
        (Item.update screenW screenH dt it).1
          ∉ (IMState.update screenW screenH randSpawn randX randV dt risingChance s).2) ∧
      (Item.update screenW screenH dt it).1
        ∉ (IMState.update screenW screenH randSpawn randX randV dt risingChance s).1.items) ∧
    (IMState.offScreen screenH (Item.update screenW screenH dt it).1 = false →
      (Item.update screenW screenH dt it).1
        ∈ (IMState.update screenW screenH randSpawn randX randV dt risingChance s).1.items ∧
      (Item.update screenW screenH dt it).1
        ∉ (IMState.update screenW screenH randSpawn randX randV dt risingChance s).2) := by
  obtain ⟨hk, hm⟩ := update_proj screenW screenH randSpawn randX randV dt risingChance s
  have hu : (Item.update screenW screenH dt it).1
      ∈ (IMState.spawnPhase screenW screenH randSpawn randX randV dt risingChance s).items.map
        (fun x => (Item.update screenW screenH dt x).1) :=
    List.mem_map_of_mem _ hmem
  constructor
  · intro hoff
    refine ⟨?_, ?_, ?_⟩
    · intro hcol
      rw [hm]
      exact List.mem_filter.mpr ⟨hu, by simp [hoff, hcol]⟩
    · intro hcol hin
      rw [hm] at hin
      have hpred := (List.mem_filter.mp hin).2
      simp [hoff, hcol] at hpred
    · intro hin
      rw [hk] at hin
      have hpred := (List.mem_filter.mp hin).2
      simp [hoff] at hpred
  · intro hoff
    constructor
    · rw [hk]
      exact List.mem_filter.mpr ⟨hu, by simp [hoff]⟩
    · intro hin
      rw [hm] at hin
      have hpred := (List.mem_filter.mp hin).2
      simp [hoff] at hpred

set_option maxRecDepth 100000 in
/-- Counterexample for C4: a full one-second tick (far longer than the
0.5 s collection animation) neither removes the collected in-screen item
from the live set nor reports it; it stays in the manager forever. -/
theorem collected_item_never_removed :
    (IMState.update 800 600 1 (1/2) (1/2) 1 0 c4State).2 = [] ∧
    collectedItem ∈ (IMState.update 800 600 1 (1/2) (1/2) 1 0 c4State).1.items := by
  with_unfolding_all decide

set_option maxRecDepth 100000 in
/-- Witness for C4: the boundary-crossing uncollected item is reported as
missed by the next tick and is gone from the live set. -/
theorem update_removal_spec_witness :
    (Item.update 800 600 1 missedFallingItem).1
      ∈ (IMState.update 800 600 1 (1/2) (1/2) 1 0 c4bState).2 ∧
    (Item.update 800 600 1 missedFallingItem).1
      ∉ (IMState.update 800 600 1 (1/2) (1/2) 1 0 c4bState).1.items := by
  have h := update_removal_spec 800 600 1 (1/2) (1/2) 1 0 c4bState missedFallingItem
    (by with_unfolding_all decide)
  have hoff : IMState.offScreen 600 (Item.update 800 600 1 missedFallingItem).1 = true := by
    with_unfolding_all decide
  obtain ⟨h1, _, h3⟩ := h.1 hoff
  exact ⟨h1 (by with_unfolding_all decide), h3⟩

/-- Witness for C3: a version-2 record is rejected with the state left
untouched (Scenario F), while a well-shaped record with an unknown upgrade
id is accepted. -/
theorem loadGame_validation_witness :
    (MState.init 7).loadGame badVersionRec = (false, MState.init 7) ∧
    ((MState.init 7).loadGame unknownIdRec).1 = true := by
  constructor
  · exact (loadGame_validation (MState.init 7) badVersionRec).1
      (Or.inr (Or.inr (by with_unfolding_all decide)))
  · exact (loadGame_validation (MState.init 7) unknownIdRec).2
      ⟨by with_unfolding_all decide, by with_unfolding_all decide,
       by with_unfolding_all decide⟩

/-- The velocity-relevant fields of a resolved collision (positions also
move by the overlap correction, but velocities are what the separation
property is about). -/
theorem handleCollision_fields (dist : ℚ) (t o : Item) (hd : ¬ dist = 0)
    (hv : ¬ ((t.velocityX - o.velocityX) * ((t.x - o.x) / dist)
        + (t.vy - o.vy) * ((t.y - o.y) / dist) > 0)) :
    (Item.handleCollision dist t o).1.velocityX
      = t.velocityX + ((t.x - o.x) / dist)
          * (-(1 + 6/10) * ((t.velocityX - o.velocityX) * ((t.x - o.x) / dist)
              + (t.vy - o.vy) * ((t.y - o.y) / dist))) * (1/2) ∧
    (Item.handleCollision dist t o).2.velocityX
      = o.velocityX - ((t.x - o.x) / dist)
          * (-(1 + 6/10) * ((t.velocityX - o.velocityX) * ((t.x - o.x) / dist)
              + (t.vy - o.vy) * ((t.y - o.y) / dist))) * (1/2) ∧
    (Item.handleCollision dist t o).1.speed
      = |t.vy + ((t.y - o.y) / dist)
          * (-(1 + 6/10) * ((t.velocityX - o.velocityX) * ((t.x - o.x) / dist)
              + (t.vy - o.vy) * ((t.y - o.y) / dist))) * (1/2)| * (8/10) ∧
    (Item.handleCollision dist t o).2.speed
      = |o.vy - ((t.y - o.y) / dist)
          * (-(1 + 6/10) * ((t.velocityX - o.velocityX) * ((t.x - o.x) / dist)
              + (t.vy - o.vy) * ((t.y - o.y) / dist))) * (1/2)| * (8/10) ∧
    (Item.handleCollision dist t o).1.isRising = t.isRising ∧
    (Item.handleCollision dist t o).2.isRising = o.isRising := by
  unfold Item.handleCollision
  rw [if_neg hd, if_neg hv]
  exact ⟨rfl, rfl, rfl, rfl, rfl, rfl⟩

set_option maxHeartbeats 1600000 in
/-- C9 as amended. For two uncollected entities in the same mode whose
centers are vertically aligned (purely vertical separation normal), with
non-negative speeds, overlapping boxes, distinct centers and velocities
approaching along the normal, the resolved pair is separating: the
post-resolution relative velocity along the normal is non-negative.  (For
cross-mode pairs this fails — see the counterexample — because the vertical
write-back keeps each item's original direction flag.) -/
theorem collision_vertical_same_mode_separates (dist : ℚ) (t o : Item)
    (hmode : t.isRising = o.isRising)
    (hcolT : t.isCollected = false) (hcolO : o.isCollected = false)
    (hoverlap : Item.aabbOverlap t o = true)
    (hx : t.x = o.x)
    (hts : 0 ≤ t.speed) (hos : 0 ≤ o.speed)
    (hd2 : dist ^ 2 = (t.x - o.x) ^ 2 + (t.y - o.y) ^ 2)
    (hdpos : 0 < dist)
    (happ : (t.velocityX - o.velocityX) * ((t.x - o.x) / dist)
        + (t.vy - o.vy) * ((t.y - o.y) / dist) < 0) :
    0 ≤ ((Item.handleCollision dist t o).1.velocityX
          - (Item.handleCollision dist t o).2.velocityX) * ((t.x - o.x) / dist)
        + ((Item.handleCollision dist t o).1.vy
          - (Item.handleCollision dist t o).2.vy) * ((t.y - o.y) / dist) := by
  have hd : ¬ dist = 0 := ne_of_gt hdpos
  have hv : ¬ ((t.velocityX - o.velocityX) * ((t.x - o.x) / dist)
      + (t.vy - o.vy) * ((t.y - o.y) / dist) > 0) := asymm happ
  obtain ⟨e1, e2, e3, e4, e5, e6⟩ := handleCollision_fields dist t o hd hv
  have hdx : t.x - o.x = 0 := by rw [hx, sub_self]
  have hnx : (t.x - o.x) / dist = 0 := by rw [hdx, zero_div]
  have hdy2 : (t.y - o.y) ^ 2 = dist ^ 2 := by
    rw [hd2, hdx]
    ring
  have hny2 : ((t.y - o.y) / dist) * ((t.y - o.y) / dist) = 1 := by
    rw [div_mul_div_comm]
    rw [div_eq_one_iff_eq (by positivity)]
    linear_combination hdy2
  have happ' : (t.vy - o.vy) * ((t.y - o.y) / dist) < 0 := by
    have h0 := happ
    rw [hnx] at h0
    simpa using h0
  have hvy1 : (Item.handleCollision dist t o).1.vy
      = (Item.handleCollision dist t o).1.speed
        * (if (Item.handleCollision dist t o).1.isRising then (-1 : ℚ) else 1) := rfl
  have hvy2 : (Item.handleCollision dist t o).2.vy
      = (Item.handleCollision dist t o).2.speed
        * (if (Item.handleCollision dist t o).2.isRising then (-1 : ℚ) else 1) := rfl
  rw [hvy1, hvy2, e1, e2, e3, e4, e5, e6, hnx]
  simp only [zero_mul, mul_zero, add_zero, zero_add, sub_zero, sub_sub_cancel]
  have hkey : ((t.y - o.y) / dist)
      * (-(1 + 6/10) * ((t.vy - o.vy) * ((t.y - o.y) / dist))) * (1/2)
      = -(4/5) * (t.vy - o.vy) := by
    linear_combination (-(4/5) * (t.vy - o.vy)) * hny2
  rw [hkey]
  cases hm : t.isRising with
  | false =>
    have hmo : o.isRising = false := by rw [← hmode, hm]
    have hvt : t.vy = t.speed := by simp [Item.vy, hm]
    have hvo : o.vy = o.speed := by simp [Item.vy, hmo]
    rw [hmo]
    rw [hvt, hvo] at happ' ⊢
    rw [if_neg (by simp : ¬ false = true)]
    simp only [mul_one]
    have habs1 : (0:ℚ) ≤ t.speed + -(4/5) * (t.speed - o.speed) := by linarith
    have habs2 : (0:ℚ) ≤ o.speed - -(4/5) * (t.speed - o.speed) := by linarith
    rw [abs_of_nonneg habs1, abs_of_nonneg habs2]
    nlinarith [happ']
  | true =>
    have hmo : o.isRising = true := by rw [← hmode, hm]
    have hvt : t.vy = -t.speed := by simp [Item.vy, hm]
    have hvo : o.vy = -o.speed := by simp [Item.vy, hmo]
    rw [hmo]
    rw [hvt, hvo] at happ' ⊢
    rw [if_pos (rfl : true = true)]
    simp only [mul_neg_one]
    have hle1 : (-t.speed + -(4/5) * (-t.speed - -o.speed)) ≤ 0 := by linarith
    have hle2 : (-o.speed - -(4/5) * (-t.speed - -o.speed)) ≤ 0 := by linarith
    rw [abs_of_nonpos hle1, abs_of_nonpos hle2]
    nlinarith [happ']

set_option maxRecDepth 100000 in
/-- Counterexample for C9: an uncollected rising item below and falling
item above with overlapping boxes, distinct centers (distance 30) and
velocities approaching along the normal are, after `handleCollision`,
STILL approaching: the post-resolution relative velocity along the
separation normal is negative, because each item's damped speed magnitude
is re-signed with its unchanged direction flag. -/
theorem collision_still_approaching :
    Item.aabbOverlap risingBelow fallingAbove = true ∧
    risingBelow.isCollected = false ∧ fallingAbove.isCollected = false ∧
    (30:ℚ) ^ 2 = (risingBelow.x - fallingAbove.x) ^ 2
      + (risingBelow.y - fallingAbove.y) ^ 2 ∧
    ((risingBelow.velocityX - fallingAbove.velocityX)
        * ((risingBelow.x - fallingAbove.x) / 30)
      + (risingBelow.vy - fallingAbove.vy)
        * ((risingBelow.y - fallingAbove.y) / 30) < 0) ∧
    (((Item.handleCollision 30 risingBelow fallingAbove).1.velocityX
        - (Item.handleCollision 30 risingBelow fallingAbove).2.velocityX)
        * ((risingBelow.x - fallingAbove.x) / 30)
      + ((Item.handleCollision 30 risingBelow fallingAbove).1.vy
        - (Item.handleCollision 30 risingBelow fallingAbove).2.vy)
        * ((risingBelow.y - fallingAbove.y) / 30) < 0) := by
  with_unfolding_all decide

set_option maxRecDepth 100000 in
/-- Witness for the amended C9: a same-mode vertically aligned approaching
pair separates after resolution. -/
theorem collision_vertical_same_mode_separates_witness :
    0 ≤ ((Item.handleCollision 30 fallFast fallSlow).1.velocityX
          - (Item.handleCollision 30 fallFast fallSlow).2.velocityX)
          * ((fallFast.x - fallSlow.x) / 30)
        + ((Item.handleCollision 30 fallFast fallSlow).1.vy
          - (Item.handleCollision 30 fallFast fallSlow).2.vy)
          * ((fallFast.y - fallSlow.y) / 30) := by
  exact collision_vertical_same_mode_separates 30 fallFast fallSlow rfl rfl rfl
    (by with_unfolding_all decide) rfl (by with_unfolding_all decide)
    (by with_unfolding_all decide) (by with_unfolding_all decide)
    (by with_unfolding_all decide) (by with_unfolding_all decide)

end DropFrenzy

